import Mathlib

/-!
Verification of the intent-classification and slide-generation pipeline of the
AI-Assistant-for-Teachers repository (src/streamlit1.py and
src/streamlit_multilingual_voice_input.py).

The Python functions are shallowly embedded as Lean functions.  Strings are
Lean `String`s manipulated through their character lists; the remote
chat-completion call and the JSON parser (external collaborators) are
parameters; a Python call that can raise is modelled by an explicit outcome
type.  Python's `str.lower` is modelled on the ASCII range (the only range the
keywords and sentinels exercise; characters of the Indic scripts used by the
multilingual keyword list are unaffected by lower-casing in both models).
-/

namespace TeachersAssistant

/-- The character with code point 123, an opening curly brace. -/
def lbrace : Char := Char.ofNat 123

/-- The character with code point 125, a closing curly brace. -/
def rbrace : Char := Char.ofNat 125

/-- Whitespace test modelling the character class stripped by Python's
`str.strip()` (space, tab, newline, vertical tab, form feed, carriage
return). -/
def isWs (c : Char) : Bool :=
  c.toNat = 32 || c.toNat = 9 || c.toNat = 10 || c.toNat = 11 ||
    c.toNat = 12 || c.toNat = 13

/-- Lower-casing of one character (ASCII model of Python's `str.lower()`). -/
def lowerChar (c : Char) : Char :=
  if 65 ≤ c.toNat ∧ c.toNat ≤ 90 then Char.ofNat (c.toNat + 32) else c

/-- Upper-casing of one character (ASCII model, used by `str.capitalize()`). -/
def upperChar (c : Char) : Char :=
  if 97 ≤ c.toNat ∧ c.toNat ≤ 122 then Char.ofNat (c.toNat - 32) else c

/-- Model of Python's `str.lower()`. -/
def strLower (s : String) : String := ⟨s.data.map lowerChar⟩

/-- Remove leading and trailing whitespace from a character list. -/
def trimChars (l : List Char) : List Char :=
  ((l.dropWhile isWs).reverse.dropWhile isWs).reverse

/-- Model of Python's `str.strip()`. -/
def pyStrip (s : String) : String := ⟨trimChars s.data⟩

/-- Model of Python's `str.capitalize()`: first character upper-cased, the
rest lower-cased. -/
def pyCapitalize (s : String) : String :=
  match s.data with
  | [] => ""
  | c :: cs => ⟨upperChar c :: cs.map lowerChar⟩

/-- Model of Python's substring test `pat in s`. -/
def strContains (s pat : String) : Bool := decide (pat.data <:+: s.data)

/-- Outcome of the remote chat-completion call, an external collaborator: it
either returns a response text or raises an exception carrying a message. -/
inductive RemoteOutcome where
  | ok (response : String)
  | exn (message : String)
deriving DecidableEq, Repr

/-- The keyword fast-path list of `classify_intent` in src/streamlit1.py
(lines 37-42). -/
def ppt_keywords : List String :=
  ["ppt", "powerpoint", "presentation", "slide", "slides", "deck",
   "create a presentation", "make a presentation", "generate a presentation",
   "create a ppt", "make a ppt", "generate a ppt",
   "create slides", "make slides", "generate slides"]

/-- The keyword fast-path list of `classify_intent` in
src/streamlit_multilingual_voice_input.py (lines 52-65): the English list
plus Hindi, Bengali, Tamil and Telugu keywords. -/
def ppt_keywords_ml : List String :=
  ppt_keywords ++
  ["प्रेजेंटेशन", "पावरपॉइंट", "पीपीटी", "स्लाइड",
   "পাওয়ার পয়েন্ট", "প্রেজেন্টেশন", "স্লাইড",
   "விளக்கக்காட்சி", "பவர்பாயிண்ட்", "ஸ்லைடு",
   "ప్రజెంటేషన్", "పవర్ పాయింట్", "స్లైడ్"]

/-- Embedding of `classify_intent` from src/streamlit1.py (lines 24-80).
The first component is the returned intent string; the second records
whether the remote chat-completion call was issued (the `try` block was
entered).  The keyword loop returns `"ppt_generation"` on the first match;
otherwise the remote call is made: an exception falls back to
`"normal_query"`, a response is stripped, lower-cased and searched for the
substring `"ppt_generation"`. -/
def classify_intent (query : String) (remote : RemoteOutcome) : String × Bool :=
  let query_lower := strLower query
  if ppt_keywords.any (fun keyword => strContains query_lower keyword) then
    ("ppt_generation", false)
  else
    match remote with
    | .exn _ => ("normal_query", true)
    | .ok response =>
      let classification := strLower (pyStrip response)
      if strContains classification "ppt_generation" then
        ("ppt_generation", true)
      else
        ("normal_query", true)

/-- Embedding of `classify_intent` from
src/streamlit_multilingual_voice_input.py (lines 39-103).  Identical to the
English variant except for the keyword list and the extra `keyword.lower()`
applied inside the loop. -/
def classify_intent_ml (query : String) (remote : RemoteOutcome) : String × Bool :=
  let query_lower := strLower query
  if ppt_keywords_ml.any (fun keyword => strContains query_lower (strLower keyword)) then
    ("ppt_generation", false)
  else
    match remote with
    | .exn _ => ("normal_query", true)
    | .ok response =>
      let classification := strLower (pyStrip response)
      if strContains classification "ppt_generation" then
        ("ppt_generation", true)
      else
        ("normal_query", true)

/-- Embedding of `extract_json` from src/streamlit1.py lines 86-89 (and the
identical copy at lines 109-112 of the multilingual file):
`re.search` of the greedy pattern "\x7b.*\x7d" with `re.DOTALL`.  The
leftmost match of this pattern starts at the first opening brace and, by
greediness of `.*` (which under DOTALL matches every character including
newlines), ends at the last closing brace of the rest of the string; if the
first opening brace is not followed by any closing brace then no later
start position can match either, and the search fails. -/
def extract_json (text : String) : Option String :=
  match text.data.findIdx? (fun c => c = lbrace) with
  | none => none
  | some i =>
    let fromBrace := text.data.drop i
    match fromBrace.reverse.findIdx? (fun c => c = rbrace) with
    | none => none
    | some k => some ⟨fromBrace.take (fromBrace.length - k)⟩

/-- A JSON value, the model of what Python's `json.loads` produces. -/
inductive JVal where
  | str (s : String)
  | num (n : Int)
  | bool (b : Bool)
  | null
  | arr (items : List JVal)
  | obj (fields : List (String × JVal))
deriving BEq

/-- Outcome of a fallible external call (such as Python's `json.loads`,
which raises on malformed input). -/
inductive PyResult (α : Type) where
  | ok (value : α)
  | exn (message : String)

/-- Embedding of `generate_presentation_content` from src/streamlit1.py
lines 91-156 (and the identical logic in the multilingual file).  The remote
chat-completion call and `json.loads` are external collaborators passed as
parameters.  An exception from the remote call is caught and returned as an
error dict; a stripped response with no extractable JSON yields the error
dict with the no-JSON message; a parse failure of the extracted substring is
caught by the same `except` block. -/
def generate_presentation_content (remote : RemoteOutcome)
    (jsonLoads : String → PyResult JVal) : JVal :=
  match remote with
  | .exn e => .obj [("error", .str e)]
  | .ok content =>
    let output := pyStrip content
    match extract_json output with
    | none => .obj [("error", .str "No valid JSON found.")]
    | some json_str =>
      match jsonLoads json_str with
      | .ok v => v
      | .exn e => .obj [("error", .str e)]

/-- Structured view of one slide dict of the presentation data, with the
fields that `create_powerpoint` reads. -/
structure SlideData where
  title : String
  type : String
  content : Option String := none
  subtitle : Option String := none
  points : List String := []
  paragraphs : List String := []
  key_takeaway : Option String := none
deriving DecidableEq, Repr

/-- The synthetic filler slide appended by the normalization step of
`create_powerpoint` (src/streamlit1.py lines 180-184). -/
def fillerSlide : SlideData :=
  { title := "Additional Information"
    type := "bullet_points"
    points := ["Key point about the topic", "Supporting information",
               "Additional detail", "Final point"] }

/-- The `while len(slides) < 6: slides.append(filler)` loop of
`create_powerpoint` (src/streamlit1.py lines 179-184). -/
def padLoop (slides : List SlideData) : List SlideData :=
  if _h : slides.length < 6 then padLoop (slides ++ [fillerSlide]) else slides
termination_by 6 - slides.length
decreasing_by simp; omega

/-- The slide-count normalization step at the start of `create_powerpoint`
(src/streamlit1.py lines 174-187, identical in the multilingual file at
lines 199-212): lists of fewer than 6 slides are padded with filler slides,
longer lists are truncated to their first 6 entries, and a list of exactly 6
slides is left untouched. -/
def normalizeSlides (slides : List SlideData) : List SlideData :=
  if slides.length ≠ 6 then
    if slides.length < 6 then padLoop slides
    else slides.take 6
  else slides

/-- A styled paragraph placed on a rendered slide.  Unset styling attributes
keep their listed defaults (`size := 0` stands for "no explicit font size
was assigned"). -/
structure Para where
  text : String
  size : Nat := 0
  bold : Bool := false
  italic : Bool := false
  align : String := "default"
  color : String := "none"
  spaceBefore : Nat := 0
deriving DecidableEq, Repr

/-- The slide-layout index chosen from the slide's `type` tag
(src/streamlit1.py lines 191-201): every type outside the known set falls
back to layout 1, the Title-and-Content layout also used for bullet
slides. -/
def selectLayout (ty : String) : Nat :=
  if ty = "title_slide" then 0
  else if ty = "section_header" then 2
  else if ty = "bullet_points" ∨ ty = "conclusion_slide" then 1
  else if ty = "content_slide" then 5
  else 1

/-- The body paragraphs added to a slide by the per-type content branches of
`create_powerpoint` (src/streamlit1.py lines 222-330).  The `elif` chain
handles exactly the five known type tags; a slide whose type matches none of
them reaches no content branch, so no body paragraph is added to it. -/
def renderBody (sd : SlideData) : List Para :=
  if sd.type = "title_slide" then
    [{ text := sd.subtitle.getD (sd.content.getD "")
       size := 24, italic := true, align := "center" }]
  else if sd.type = "bullet_points" then
    sd.points.map (fun point =>
      { text := point, size := 20, align := "left", color := "text" })
  else if sd.type = "content_slide" then
    sd.paragraphs.enum.map (fun p =>
      { text := p.2, size := 20, align := "left", color := "text"
        spaceBefore := if 0 < p.1 then 12 else 0 })
  else if sd.type = "section_header" then
    match sd.content with
    | some c => [{ text := c, size := 28, bold := true, align := "center", color := "accent" }]
    | none => []
  else if sd.type = "conclusion_slide" then
    { text := sd.content.getD "", size := 22, align := "left", color := "text" } ::
      (match sd.key_takeaway with
       | some kt =>
         [{ text := "", spaceBefore := 20 },
          { text := "Key Takeaway: " ++ kt
            size := 24, bold := true, italic := true, align := "center", color := "accent" }]
       | none => [])
  else []

/-- A rendered slide: the chosen layout, the styled title
(32pt, bold, centered, title color — lines 207-219), and the body
paragraphs. -/
structure RenderedSlide where
  layout : Nat
  title : Para
  body : List Para
deriving DecidableEq, Repr

/-- Rendering of one slide inside the loop of `create_powerpoint`. -/
def render_slide (sd : SlideData) : RenderedSlide :=
  { layout := selectLayout sd.type
    title := { text := sd.title, size := 32, bold := true, align := "center", color := "title" }
    body := renderBody sd }

/-- Embedding of `create_powerpoint` (src/streamlit1.py lines 158-334) at
the level of its observable structure: normalize the slide list to exactly
6 entries, then render each slide in order. -/
def create_powerpoint (slides : List SlideData) : List RenderedSlide :=
  (normalizeSlides slides).map render_slide

/-- Field lookup in a JSON object, the model of Python's `d[key]` /
`d.get(key)` on the parsed presentation dict. -/
def lookupField (fields : List (String × JVal)) (key : String) : Option JVal :=
  (fields.find? (fun kv => kv.1 = key)).map (fun kv => kv.2)

/-- The test `"error" in presentation_data` of `process_ppt_request`
(src/streamlit1.py line 352): key membership in the dict. -/
def hasErrorKey (fields : List (String × JVal)) : Bool :=
  fields.any (fun kv => kv.1 = "error")

/-- Read a string out of an optional JSON value. -/
def asStr : Option JVal → Option String
  | some (.str s) => some s
  | _ => none

/-- Read a list of strings out of an optional JSON value (non-string
entries are dropped; the slide dicts produced by the generator's prompt
contract hold only strings there). -/
def asStrList : Option JVal → List String
  | some (.arr xs) =>
    xs.filterMap (fun v => match v with | .str s => some s | _ => none)
  | _ => []

/-- Decoding of one slide dict of the parsed presentation data into the
fields `create_powerpoint` reads from it. -/
def toSlideData : JVal → SlideData
  | .obj fields =>
    { title := (asStr (lookupField fields "title")).getD ""
      type := (asStr (lookupField fields "type")).getD ""
      content := asStr (lookupField fields "content")
      subtitle := asStr (lookupField fields "subtitle")
      points := asStrList (lookupField fields "points")
      paragraphs := asStrList (lookupField fields "paragraphs")
      key_takeaway := asStr (lookupField fields "key_takeaway") }
  | _ => { title := "", type := "" }

/-- Observable outcome of the part of `process_ppt_request` that follows
content generation (src/streamlit1.py lines 349-385): an early-returned
generation-failure message, a rendered artifact, or an uncaught exception
(`KeyError`/`TypeError`) when the dict has no `slides` list. -/
inductive PptResult where
  | genFailure (error : JVal)
  | artifact (deck : List RenderedSlide)
  | crash (message : String)
deriving BEq

/-- Embedding of the failure decision and rendering of `process_ppt_request`
applied to the value returned by `generate_presentation_content`: if the
dict contains the key `"error"` the function returns the error message at
once (lines 352-353) and renders nothing; otherwise it renders
`presentation_data["slides"]` through `create_powerpoint`. -/
def process_ppt_request (presentation_data : JVal) : PptResult :=
  match presentation_data with
  | .obj fields =>
    if hasErrorKey fields then
      .genFailure ((lookupField fields "error").getD .null)
    else
      match lookupField fields "slides" with
      | some (.arr slideVals) =>
        .artifact (create_powerpoint (slideVals.map toSlideData))
      | _ => .crash "KeyError: slides"
  | _ => .crash "TypeError: argument of type is not iterable"

/-- One element of the topic-extraction regular expression: a literal, a
greedy `\s+`, a greedy ordered alternation of element sequences (an
optional group is an alternation whose last alternative is empty), or the
final greedy capture group `(.*)`. -/
inductive RElem where
  | lit (s : List Char)
  | ws1
  | altSeq (groups : List (List RElem))
  | rest

mutual

/-- Backtracking matcher for a pattern (a list of `RElem` ending in
`RElem.rest`) against a character list, with Python `re` semantics: ordered
alternation, greedy `\s+`, and a greedy final capture.  Returns the text
captured by the final `(.*)` group on success.  The fuel argument bounds
recursion depth and is chosen large enough by the caller. -/
def matchElems : Nat → List RElem → List Char → Option (List Char)
  | 0, _, _ => none
  | _ + 1, [], _ => none
  | _ + 1, RElem.rest :: _, l => some l
  | fuel + 1, RElem.lit s :: es, l =>
    if s.isPrefixOf l then matchElems fuel es (l.drop s.length) else none
  | fuel + 1, RElem.ws1 :: es, l =>
    tryWs fuel (l.takeWhile isWs).length es l
  | fuel + 1, RElem.altSeq gs :: es, l =>
    tryGroups fuel gs es l

/-- Greedy `\s+`: try consuming `k` leading whitespace characters, largest
first, down to one. -/
def tryWs : Nat → Nat → List RElem → List Char → Option (List Char)
  | 0, _, _, _ => none
  | _ + 1, 0, _, _ => none
  | fuel + 1, k + 1, es, l =>
    match matchElems fuel es (l.drop (k + 1)) with
    | some r => some r
    | none => tryWs fuel k es l

/-- Ordered alternation: try each alternative group in order, backtracking
into the continuation. -/
def tryGroups : Nat → List (List RElem) → List RElem → List Char → Option (List Char)
  | 0, _, _, _ => none
  | _ + 1, [], _, _ => none
  | fuel + 1, g :: gs, es, l =>
    match matchElems fuel (g ++ es) l with
    | some r => some r
    | none => tryGroups fuel gs es l

end

/-- Model of `re.search`: try a match at each start position from left to
right. -/
def searchCap : Nat → List RElem → List Char → Option (List Char)
  | 0, _, _ => none
  | fuel + 1, es, l =>
    match matchElems fuel es l with
    | some r => some r
    | none =>
      match l with
      | [] => none
      | _ :: t => searchCap fuel es t

/-- The character list of a string literal. -/
def cs (s : String) : List Char := s.data

/-- The topic-extraction pattern of `process_ppt_request`
(src/streamlit1.py line 339), element for element:
`(?:generate|create|make|prepare)` then the optional group `(?:\s+a)?`,
then `\s+`, then `(?:ppt|powerpoint|presentation|slides)`, then the
optional group `(?:\s+on|about|for|covering)?` — in which the `\s+` binds
only to the first alternative `on` — then `\s+` and the capture `(.*)`. -/
def topicPattern : List RElem :=
  [ .altSeq [[.lit (cs "generate")], [.lit (cs "create")],
             [.lit (cs "make")], [.lit (cs "prepare")]],
    .altSeq [[.ws1, .lit (cs "a")], []],
    .ws1,
    .altSeq [[.lit (cs "ppt")], [.lit (cs "powerpoint")],
             [.lit (cs "presentation")], [.lit (cs "slides")]],
    .altSeq [[.ws1, .lit (cs "on")], [.lit (cs "about")],
             [.lit (cs "for")], [.lit (cs "covering")], []],
    .ws1,
    .rest ]

/-- The topic-extraction step of `process_ppt_request` (src/streamlit1.py
lines 338-340): search the pattern in the lower-cased input and take capture
group 1, falling back to the whole input when there is no match. -/
def extract_topic (user_input : String) : String :=
  let lowered := (strLower user_input).data
  match searchCap (20 * lowered.length + 100) topicPattern lowered with
  | some capture => ⟨capture⟩
  | none => user_input

/-- Topic formatting of `process_ppt_request` (line 343):
`topic.strip().capitalize()`. -/
def ppt_topic (user_input : String) : String :=
  pyCapitalize (pyStrip (extract_topic user_input))


/-! ### Helper lemmas -/

lemma padLoop_eq (slides : List SlideData) :
    padLoop slides = slides ++ List.replicate (6 - slides.length) fillerSlide := by
  generalize hn : 6 - slides.length = n
  induction n generalizing slides with
  | zero =>
    rw [padLoop, dif_neg (by omega)]
    simp
  | succ n ih =>
    have hlt : slides.length < 6 := by omega
    rw [padLoop, dif_pos hlt, ih (slides ++ [fillerSlide]) (by simp; omega)]
    simp only [List.append_assoc, List.singleton_append, List.length_append,
      List.length_singleton]
    rw [List.replicate_succ]

lemma normalizeSlides_of_lt {slides : List SlideData} (h : slides.length < 6) :
    normalizeSlides slides = slides ++ List.replicate (6 - slides.length) fillerSlide := by
  rw [normalizeSlides, if_pos (by omega), if_pos h, padLoop_eq]

lemma normalizeSlides_of_ge {slides : List SlideData} (h : 6 ≤ slides.length) :
    normalizeSlides slides = slides.take 6 := by
  by_cases h6 : slides.length = 6
  · rw [normalizeSlides, if_neg (by omega)]
    rw [← h6, List.take_length]
  · rw [normalizeSlides, if_pos (by omega), if_neg (by omega)]

lemma ws_lowerChar {c : Char} (h : isWs c = true) : lowerChar c = c := by
  have h' : ((((c.toNat = 32 ∨ c.toNat = 9) ∨ c.toNat = 10) ∨ c.toNat = 11) ∨
      c.toNat = 12) ∨ c.toNat = 13 := by
    simpa [isWs] using h
  rw [lowerChar, if_neg]
  omega

lemma pat_in_dropWhile_map {pat : List Char} (hne : pat ≠ [])
    (hws : ∀ c ∈ pat, isWs c = false) (l : List Char)
    (h : pat <:+: l.map lowerChar) :
    pat <:+: (l.dropWhile isWs).map lowerChar := by
  induction l with
  | nil => simpa using h
  | cons c t ih =>
    by_cases hc : isWs c = true
    · rw [List.dropWhile_cons_of_pos hc]
      simp only [List.map_cons] at h
      rcases List.infix_cons_iff.mp h with hpre | hinf
      · cases pat with
        | nil => exact absurd rfl hne
        | cons p ps =>
          have hpc := (List.cons_prefix_cons.mp hpre).1
          rw [ws_lowerChar hc] at hpc
          have hfalse := hws p (List.mem_cons_self p ps)
          simp [hpc, hc] at hfalse
      · exact ih hinf
    · rw [List.dropWhile_cons_of_neg hc]
      exact h

lemma trimChars_isInfix (l : List Char) : trimChars l <:+: l := by
  have h1 : l.dropWhile isWs <:+ l := List.dropWhile_suffix isWs
  have h2 : (l.dropWhile isWs).reverse.dropWhile isWs <:+ (l.dropWhile isWs).reverse :=
    List.dropWhile_suffix isWs
  have h3 : trimChars l <+: l.dropWhile isWs := by
    rw [trimChars, ← List.reverse_suffix]
    simpa using h2
  exact h3.isInfix.trans h1.isInfix

lemma pat_in_trim_map {pat : List Char} (hne : pat ≠ [])
    (hws : ∀ c ∈ pat, isWs c = false) (l : List Char) :
    pat <:+: (trimChars l).map lowerChar ↔ pat <:+: l.map lowerChar := by
  constructor
  · intro h
    exact h.trans (List.IsInfix.map lowerChar (trimChars_isInfix l))
  · intro h
    have hne' : pat.reverse ≠ [] := by simpa using hne
    have hws' : ∀ c ∈ pat.reverse, isWs c = false :=
      fun c hc => hws c (List.mem_reverse.mp hc)
    have s1 := pat_in_dropWhile_map hne hws l h
    have s2 := List.reverse_infix.mpr s1
    rw [← List.map_reverse] at s2
    have s3 := pat_in_dropWhile_map hne' hws' (l.dropWhile isWs).reverse s2
    have s4 := List.reverse_infix.mpr s3
    rw [List.reverse_reverse, ← List.map_reverse] at s4
    simpa [trimChars] using s4

lemma findIdx?_first_hit {p : Char → Bool} {y : Char} (hy : p y = true)
    (a : List Char) (ha : ∀ x ∈ a, p x = false) (t : List Char) :
    (a ++ y :: t).findIdx? p = some a.length := by
  induction a with
  | nil => simp [hy]
  | cons x a ih =>
    have hx : p x = false := ha x (List.mem_cons_self x a)
    have ih' := ih (fun z hz => ha z (List.mem_cons_of_mem x hz))
    simp [hx, List.findIdx?_succ, ih']

lemma extract_json_no_lbrace (s : String) (h : lbrace ∉ s.data) :
    extract_json s = none := by
  have hfind : s.data.findIdx? (fun c => c = lbrace) = none := by
    rw [List.findIdx?_eq_none_iff]
    intro x hx
    simp only [decide_eq_false_iff_not]
    exact fun he => h (he ▸ hx)
  simp [extract_json.eq_def, hfind]

lemma extract_json_span (s : String) (a m b : List Char)
    (hdecomp : s.data = a ++ lbrace :: (m ++ rbrace :: b))
    (ha : lbrace ∉ a) (hb : rbrace ∉ b) :
    extract_json s = some ⟨lbrace :: (m ++ [rbrace])⟩ := by
  have hfind : s.data.findIdx? (fun c => c = lbrace) = some a.length := by
    rw [hdecomp]
    refine findIdx?_first_hit (by simp) a ?_ _
    intro x hx
    simp only [decide_eq_false_iff_not]
    exact fun he => ha (he ▸ hx)
  have hdrop : s.data.drop a.length = lbrace :: (m ++ rbrace :: b) := by
    rw [hdecomp]
    exact List.drop_left a _
  have hsplitrev : (lbrace :: (m ++ rbrace :: b)).reverse =
      b.reverse ++ rbrace :: (lbrace :: m).reverse := by
    simp
  have hfind2 : (lbrace :: (m ++ rbrace :: b)).reverse.findIdx? (fun c => c = rbrace) =
      some b.length := by
    rw [hsplitrev]
    have h2 := findIdx?_first_hit (p := fun c => decide (c = rbrace)) (y := rbrace) (by simp)
      b.reverse (fun x hx => by
        simp only [decide_eq_false_iff_not]
        exact fun he => hb (he ▸ List.mem_reverse.mp hx)) (lbrace :: m).reverse
    simpa using h2
  have hsplit : lbrace :: (m ++ rbrace :: b) = (lbrace :: (m ++ [rbrace])) ++ b := by
    simp
  have hlen : (lbrace :: (m ++ rbrace :: b)).length - b.length =
      (lbrace :: (m ++ [rbrace])).length := by
    simp
    omega
  simp only [extract_json.eq_def, hfind, hdrop, hfind2, hlen, Option.some.injEq]
  rw [hsplit, List.take_left]

lemma strContains_strip_lower (resp : String) :
    strContains (strLower (pyStrip resp)) "ppt_generation" =
      strContains (strLower resp) "ppt_generation" := by
  have hdata : (strLower (pyStrip resp)).data = (trimChars resp.data).map lowerChar := rfl
  have hdata2 : (strLower resp).data = resp.data.map lowerChar := rfl
  rw [strContains, strContains, hdata, hdata2]
  exact decide_eq_decide.mpr (pat_in_trim_map (by decide) (by decide) resp.data)

/-! ### Claims -/

/-- C1: for every slide list — of length 0, 3, 6, 10 or any other — the
normalization step at the start of `create_powerpoint` produces a list of
exactly 6 slides. -/
theorem normalize_six_slides (slides : List SlideData) :
    (normalizeSlides slides).length = 6 := by
  by_cases h : slides.length < 6
  · rw [normalizeSlides_of_lt h]
    simp
    omega
  · rw [normalizeSlides_of_ge (by omega)]
    simp
    omega

/-- C6: normalization never reorders or edits retained slides: each of the
first `min length 6` entries of the normalized list is the input slide at
the same position, truncation keeps exactly the first 6 entries, and
padding only appends filler after the existing entries. -/
theorem normalize_keeps_order (slides : List SlideData) :
    (∀ i : Nat, i < min slides.length 6 →
      (normalizeSlides slides)[i]? = slides[i]?) ∧
    (6 < slides.length → normalizeSlides slides = slides.take 6) ∧
    (slides.length < 6 →
      normalizeSlides slides = slides ++ List.replicate (6 - slides.length) fillerSlide) := by
  refine ⟨fun i hi => ?_, fun h => ?_, fun h => normalizeSlides_of_lt h⟩
  · by_cases h : slides.length < 6
    · rw [normalizeSlides_of_lt h]
      exact List.getElem?_append_left (by omega)
    · rw [normalizeSlides_of_ge (by omega)]
      exact List.getElem?_take_of_lt (by omega)
  · rw [normalizeSlides_of_ge (by omega)]

/-- C2: whenever the lower-cased input contains one of the fixed trigger
keywords (the English deck vocabulary in `streamlit1.py`; additionally the
Hindi/Bengali/Tamil/Telugu keywords in the multilingual variant), the
classifier returns `"ppt_generation"` and issues no remote chat-completion
call — the result is `("ppt_generation", false)` for every possible remote
outcome. -/
theorem classify_keyword_fastpath (query : String) (r r2 : RemoteOutcome) :
    (ppt_keywords.any (fun keyword => strContains (strLower query) keyword) = true →
      classify_intent query r = ("ppt_generation", false)) ∧
    (ppt_keywords_ml.any (fun keyword =>
        strContains (strLower query) (strLower keyword)) = true →
      classify_intent_ml query r2 = ("ppt_generation", false)) := by
  constructor
  · intro h
    rw [classify_intent.eq_def]
    simp only [h, if_true]
  · intro h
    rw [classify_intent_ml.eq_def]
    simp only [h, if_true]

/-- The keyword fast-path exercised on concrete inputs: an English request
containing `"deck"` and a Hindi request containing the Hindi keyword for
slide, both classified while the remote call raises. -/
theorem classify_keyword_fastpath_witness :
    classify_intent "make me a deck please" (RemoteOutcome.exn "network down") =
      ("ppt_generation", false) ∧
    classify_intent_ml "कृपया स्लाइड बनाइए" (RemoteOutcome.exn "network down") =
      ("ppt_generation", false) :=
  ⟨(classify_keyword_fastpath "make me a deck please"
      (RemoteOutcome.exn "network down") (RemoteOutcome.exn "network down")).1
      (by decide),
   (classify_keyword_fastpath "कृपया स्लाइड बनाइए"
      (RemoteOutcome.exn "network down") (RemoteOutcome.exn "network down")).2
      (by decide)⟩

/-- C3: when the keyword fast-path does not fire, an exception from the
remote call makes `classify_intent` return `"normal_query"` (the exception
is swallowed, never propagated — the embedding is a total function and
the `exn` case yields a value); a successful response yields
`"ppt_generation"` exactly when the response text contains the substring
`"ppt_generation"` case-insensitively (its lower-casing contains the
lower-case sentinel), and `"normal_query"` otherwise. -/
theorem classify_remote_fallback (query e resp : String)
    (hk : ppt_keywords.any (fun keyword => strContains (strLower query) keyword) = false) :
    classify_intent query (RemoteOutcome.exn e) = ("normal_query", true) ∧
    (strContains (strLower resp) "ppt_generation" = true →
      classify_intent query (RemoteOutcome.ok resp) = ("ppt_generation", true)) ∧
    (strContains (strLower resp) "ppt_generation" = false →
      classify_intent query (RemoteOutcome.ok resp) = ("normal_query", true)) := by
  refine ⟨?_, ?_, ?_⟩
  · rw [classify_intent]
    simp only [hk, Bool.false_eq_true, if_false]
  · intro h
    rw [classify_intent]
    simp only [hk, Bool.false_eq_true, if_false]
    rw [strContains_strip_lower resp, h]
    simp
  · intro h
    rw [classify_intent]
    simp only [hk, Bool.false_eq_true, if_false]
    rw [strContains_strip_lower resp, h]
    simp

/-- The remote fallback exercised on a keyword-free query: a raised
exception degrades to `"normal_query"`, a response containing
`"PPT_Generation"` (mixed case, surrounded by text) classifies as
`"ppt_generation"`, and an unrelated response classifies as
`"normal_query"`. -/
theorem classify_remote_fallback_witness :
    classify_intent "what is the capital of france" (RemoteOutcome.exn "timeout") =
      ("normal_query", true) ∧
    classify_intent "what is the capital of france"
      (RemoteOutcome.ok "  The intent is PPT_Generation.  ") = ("ppt_generation", true) ∧
    classify_intent "what is the capital of france"
      (RemoteOutcome.ok "normal answer") = ("normal_query", true) :=
  ⟨(classify_remote_fallback "what is the capital of france" "timeout"
      "  The intent is PPT_Generation.  " (by decide)).1,
   (classify_remote_fallback "what is the capital of france" "timeout"
      "  The intent is PPT_Generation.  " (by decide)).2.1 (by decide),
   (classify_remote_fallback "what is the capital of france" "timeout"
      "normal answer" (by decide)).2.2 (by decide)⟩

/-- A concrete slide used by witnesses: a bullet slide with a numbered
title. -/
def numberedSlide (n : Nat) : SlideData :=
  { title := toString n, type := "bullet_points", points := ["p"] }

/-- The hypotheses of `normalize_keeps_order` discharged on concrete
inputs: a 3-slide deck is padded, an 8-slide deck is truncated, and entry 2
of the truncated deck is the input's entry 2. -/
theorem normalize_keeps_order_witness :
    normalizeSlides ((List.range 3).map numberedSlide) =
      (List.range 3).map numberedSlide ++ List.replicate 3 fillerSlide ∧
    normalizeSlides ((List.range 8).map numberedSlide) =
      ((List.range 8).map numberedSlide).take 6 ∧
    (normalizeSlides ((List.range 8).map numberedSlide))[2]? =
      ((List.range 8).map numberedSlide)[2]? := by
  refine ⟨?_, ?_, ?_⟩
  · have h := (normalize_keeps_order ((List.range 3).map numberedSlide)).2.2 (by decide)
    simpa using h
  · exact (normalize_keeps_order ((List.range 8).map numberedSlide)).2.1 (by decide)
  · exact (normalize_keeps_order ((List.range 8).map numberedSlide)).1 2 (by decide)

/-- C4: `extract_json` returns the widest brace-delimited span — on the
spec's boundary example it returns the span from the first opening brace to
the last closing brace, it returns none whenever no opening brace is
present, and in general on any string decomposed around its first opening
brace and its last closing brace it returns exactly that span. -/
theorem extract_json_widest_span :
    extract_json "blah \x7b\"a\":1\x7d blah \x7b\"b\":2\x7d blah" =
      some "\x7b\"a\":1\x7d blah \x7b\"b\":2\x7d" ∧
    (∀ s : String, lbrace ∉ s.data → extract_json s = none) ∧
    (∀ (s : String) (a m b : List Char),
      s.data = a ++ lbrace :: (m ++ rbrace :: b) →
      lbrace ∉ a → rbrace ∉ b →
      extract_json s = some ⟨lbrace :: (m ++ [rbrace])⟩) :=
  ⟨by decide, extract_json_no_lbrace, extract_json_span⟩

/-- The hypotheses of `extract_json_widest_span` discharged on concrete
inputs: a brace-free string yields none, and a string with two braces
yields the enclosed span. -/
theorem extract_json_widest_span_witness :
    extract_json "no json here" = none ∧
    extract_json "xx\x7byy\x7dzz" = some "\x7byy\x7d" :=
  ⟨extract_json_widest_span.2.1 "no json here" (by decide),
   by
     have h := extract_json_widest_span.2.2 "xx\x7byy\x7dzz" (cs "xx") (cs "yy") (cs "zz")
       (by decide) (by decide) (by decide)
     exact h.trans (by decide)⟩

/-- C9: when the input contains an opening brace but no closing brace at or
after it, `extract_json` returns none — null is returned whenever no
complete brace-delimited span exists, not only when the opening brace is
absent. -/
theorem extract_json_incomplete_brace (s : String) (a m : List Char)
    (hdecomp : s.data = a ++ lbrace :: m) (ha : lbrace ∉ a) (hm : rbrace ∉ m) :
    extract_json s = none := by
  have hfind : s.data.findIdx? (fun c => c = lbrace) = some a.length := by
    rw [hdecomp]
    refine findIdx?_first_hit (by simp) a ?_ m
    intro x hx
    simp only [decide_eq_false_iff_not]
    exact fun he => ha (he ▸ hx)
  have hdrop : s.data.drop a.length = lbrace :: m := by
    rw [hdecomp]
    exact List.drop_left a _
  have hfind2 : (lbrace :: m).reverse.findIdx? (fun c => c = rbrace) = none := by
    rw [List.findIdx?_eq_none_iff]
    intro x hx
    simp only [decide_eq_false_iff_not]
    intro he
    rcases List.mem_cons.mp (List.mem_reverse.mp hx) with h1 | h2
    · rw [he] at h1
      exact absurd h1 (by decide)
    · exact hm (he ▸ h2)
  simp only [extract_json.eq_def, hfind, hdrop, hfind2]

/-- The hypotheses of `extract_json_incomplete_brace` discharged on the
example input: an opening brace followed by text and no closing brace. -/
theorem extract_json_incomplete_brace_witness :
    extract_json "\x7babc" = none :=
  extract_json_incomplete_brace "\x7babc" [] (cs "abc") (by decide) (by decide) (by decide)

/-- C5: `generate_presentation_content` never raises — it is a total
function whose every failure is an error dict: an exception from the remote
call is returned as a dict tagged with the `"error"` key carrying the
exception message, a stripped response in which `extract_json` finds no
JSON substring yields the dict with the no-JSON message, and an exception
from JSON parsing of the extracted substring yields the dict carrying that
parse error. -/
theorem generation_failures_become_error_values
    (jsonLoads : String → PyResult JVal) (e content msg js : String) :
    generate_presentation_content (RemoteOutcome.exn e) jsonLoads =
      JVal.obj [("error", JVal.str e)] ∧
    (extract_json (pyStrip content) = none →
      generate_presentation_content (RemoteOutcome.ok content) jsonLoads =
        JVal.obj [("error", JVal.str "No valid JSON found.")]) ∧
    (extract_json (pyStrip content) = some js → jsonLoads js = PyResult.exn msg →
      generate_presentation_content (RemoteOutcome.ok content) jsonLoads =
        JVal.obj [("error", JVal.str msg)]) := by
  refine ⟨rfl, fun h => ?_, fun h hp => ?_⟩
  · simp [generate_presentation_content, h]
  · simp [generate_presentation_content, h, hp]

/-- A JSON parser stub that always raises, modelling `json.loads` on
malformed input. -/
def failParse : String → PyResult JVal := fun _ => PyResult.exn "Expecting value"

/-- The hypotheses of `generation_failures_become_error_values` discharged
on concrete inputs: a remote exception, a prose response without JSON, and
a braced response whose parse raises. -/
theorem generation_failures_become_error_values_witness :
    generate_presentation_content (RemoteOutcome.exn "APIConnectionError") failParse =
      JVal.obj [("error", JVal.str "APIConnectionError")] ∧
    generate_presentation_content (RemoteOutcome.ok "Sorry, I cannot do that.") failParse =
      JVal.obj [("error", JVal.str "No valid JSON found.")] ∧
    generate_presentation_content (RemoteOutcome.ok " \x7bbroken\x7d ") failParse =
      JVal.obj [("error", JVal.str "Expecting value")] :=
  ⟨(generation_failures_become_error_values failParse "APIConnectionError"
      "Sorry, I cannot do that." "Expecting value" "x").1,
   (generation_failures_become_error_values failParse "e"
      "Sorry, I cannot do that." "Expecting value" "x").2.1 (by decide),
   (generation_failures_become_error_values failParse "e" " \x7bbroken\x7d "
      "Expecting value" "\x7bbroken\x7d").2.2 (by decide) rfl⟩

/-- The slide used by C7's counterexample: an unknown-type slide carrying
bullet points. -/
def quizSlide : SlideData :=
  { title := "Quick Quiz", type := "quiz_slide", points := ["q1", "q2", "q3", "q4"] }

/-- C7 counterexample: a slide of unknown type `"quiz_slide"` does get the
bullet layout (layout 1), but the renderer adds no body content at all to
it — the bullet-points content rule (one paragraph per point) is not
applied, so the rendered body differs from the body the same slide gets as
a `bullet_points` slide. -/
theorem unknown_type_not_bullet_rule :
    (render_slide quizSlide).layout = 1 ∧
    (render_slide quizSlide).body = [] ∧
    (render_slide { quizSlide with type := "bullet_points" }).body =
      quizSlide.points.map (fun point =>
        { text := point, size := 20, align := "left", color := "text" }) ∧
    (render_slide quizSlide).body ≠
      (render_slide { quizSlide with type := "bullet_points" }).body := by
  refine ⟨rfl, rfl, rfl, by decide⟩

/-- C7 amended: for every slide whose type is outside the known set, the
renderer only falls back to the bullet-points layout (layout 1, Title and
Content) and the common title styling — it applies none of the content
rules, so the slide's body is empty. -/
theorem unknown_type_layout_fallback_only (sd : SlideData)
    (h1 : sd.type ≠ "title_slide") (h2 : sd.type ≠ "bullet_points")
    (h3 : sd.type ≠ "content_slide") (h4 : sd.type ≠ "section_header")
    (h5 : sd.type ≠ "conclusion_slide") :
    (render_slide sd).layout = 1 ∧ (render_slide sd).body = [] := by
  constructor
  · simp [render_slide, selectLayout, h1, h2, h3, h4, h5]
  · simp [render_slide, renderBody, h1, h2, h3, h4, h5]

/-- The hypotheses of `unknown_type_layout_fallback_only` discharged on a
concrete unknown-type slide. -/
theorem unknown_type_layout_fallback_only_witness :
    (render_slide { title := "Notes", type := "mystery_slide", points := ["p1"] }).layout = 1 ∧
    (render_slide { title := "Notes", type := "mystery_slide", points := ["p1"] }).body = [] :=
  unknown_type_layout_fallback_only
    { title := "Notes", type := "mystery_slide", points := ["p1"] }
    (by decide) (by decide) (by decide) (by decide) (by decide)

/-- C8: on the input `"create a ppt about photosynthesis"` the
topic-extraction regular expression of `process_ppt_request` captures
`"about photosynthesis"`, not `"photosynthesis"`: in the group
`(?:\s+on|about|for|covering)?` the `\s+` binds only to the alternative
`on`, so `about` (which never directly follows `ppt`) is never stripped —
the formatted topic becomes `"About photosynthesis"`.  The last conjunct
shows the preposition `on` is stripped, which the slipped alternatives
`about`/`for`/`covering` were evidently also meant to be. -/
theorem topic_extraction_keeps_preposition :
    extract_topic "create a ppt about photosynthesis" = "about photosynthesis" ∧
    ppt_topic "create a ppt about photosynthesis" = "About photosynthesis" ∧
    ppt_topic "create a ppt about photosynthesis" ≠ "Photosynthesis" ∧
    extract_topic "create a ppt on photosynthesis" = "photosynthesis" := by
  refine ⟨by decide, by decide, by decide, by decide⟩

/-- C10: `process_ppt_request` decides failure solely by the presence of
the key `"error"` in the dict returned by the generator: whenever that key
is present the request is reported as a generation failure carrying the
value stored under the key, and no presentation artifact is rendered. -/
theorem error_key_aborts_request (fields : List (String × JVal))
    (h : hasErrorKey fields = true) :
    process_ppt_request (JVal.obj fields) =
      PptResult.genFailure ((lookupField fields "error").getD JVal.null) ∧
    ∀ deck, process_ppt_request (JVal.obj fields) ≠ PptResult.artifact deck := by
  have hp : process_ppt_request (JVal.obj fields) =
      PptResult.genFailure ((lookupField fields "error").getD JVal.null) := by
    simp [process_ppt_request, h]
  exact ⟨hp, fun deck hd => by rw [hp] at hd; exact PptResult.noConfusion hd⟩

/-- A successfully parsed presentation dict that legitimately carries an
`"error"` field next to a valid title and slide list. -/
def presentationWithErrorField : List (String × JVal) :=
  [("title", JVal.str "Photosynthesis"),
   ("slides", JVal.arr [JVal.obj [("title", JVal.str "Photosynthesis"),
                                  ("type", JVal.str "title_slide"),
                                  ("content", JVal.str "An introduction")]]),
   ("error", JVal.str "")]

/-- The hypothesis of `error_key_aborts_request` discharged on a fully
valid presentation dict that also carries an `"error"` field: the request
is still reported as a generation failure and nothing is rendered. -/
theorem error_key_aborts_request_witness :
    process_ppt_request (JVal.obj presentationWithErrorField) =
      PptResult.genFailure ((lookupField presentationWithErrorField "error").getD JVal.null) ∧
    ∀ deck, process_ppt_request (JVal.obj presentationWithErrorField) ≠
      PptResult.artifact deck :=
  ⟨(error_key_aborts_request presentationWithErrorField (by decide)).1,
   (error_key_aborts_request presentationWithErrorField (by decide)).2⟩

end TeachersAssistant
